import Mathlib

/-!
Verification of the test-case descriptor
`test_regress/t/t_covergroup_coverpoints_unsup.py` against its
natural-language specification.

The descriptor is a linear sequence of calls into an external test
harness (the `test` object of `vltest_bootstrap`), with a single branch
on the externally injected boolean `test.vlt_all`:

  test.scenarios('simulator')
  if test.vlt_all:
      test.lint(fails=True, expect_filename=test.golden_filename)
  else:
      test.compile(nc_flags2=["-coverage", "functional"])
      test.execute()
  test.passes()

We embed the descriptor as a function from its external environment
(the mode flag and the harness-derived golden filename) to a trace of
harness requests, threading the environment through every statement so
that absence of mutation is visible in the embedding.  The harness
itself is not part of the repository sources; where a claim depends on
harness behaviour, the relevant fragment is modelled from the spec and
marked as such.
-/

/-- A harness request made by the descriptor.  Each constructor records
the arguments the Python file passes: `scenarios` its tag list, `lint`
its `fails` flag and `expect_filename`, `compile` its backend flag map
(the keyword `nc_flags2=[...]` is the entry of backend `nc`), and
`execute` / `passes` take no arguments. -/
inductive Event where
  | scenarios (tags : List String)
  | lint (fails : Bool) (expect_filename : String)
  | compile (flag_map : List (String × List String))
  | execute
  | passes
deriving DecidableEq, Repr

/-- The externally supplied environment the descriptor reads from the
harness `test` object: the boolean mode flag `vlt_all` and the derived
`golden_filename`. -/
structure TestEnv where
  vlt_all : Bool
  golden_filename : String
deriving DecidableEq, Repr

/-- `test.scenarios('simulator')`: appends the scenario-registration
request; does not write the environment. -/
def stScenarios (s : TestEnv × List Event) : TestEnv × List Event :=
  (s.1, s.2 ++ [Event.scenarios ["simulator"]])

/-- `test.lint(fails=True, expect_filename=test.golden_filename)`:
appends the lint request; does not write the environment. -/
def stLint (s : TestEnv × List Event) : TestEnv × List Event :=
  (s.1, s.2 ++ [Event.lint true s.1.golden_filename])

/-- `test.compile(nc_flags2=["-coverage", "functional"])`: appends the
compile request with its backend flag map; does not write the
environment. -/
def stCompile (s : TestEnv × List Event) : TestEnv × List Event :=
  (s.1, s.2 ++ [Event.compile [("nc", ["-coverage", "functional"])]])

/-- `test.execute()`: appends the execute request; does not write the
environment. -/
def stExecute (s : TestEnv × List Event) : TestEnv × List Event :=
  (s.1, s.2 ++ [Event.execute])

/-- `test.passes()`: appends the mark-pass request; does not write the
environment. -/
def stPasses (s : TestEnv × List Event) : TestEnv × List Event :=
  (s.1, s.2 ++ [Event.passes])

/-- Statement-by-statement run of the descriptor body: the scenario
registration, the branch on `test.vlt_all`, and the final
`test.passes()`.  Returns the environment after the run together with
the full trace of harness requests made (in program order). -/
def runStatements (env : TestEnv) : TestEnv × List Event :=
  let s1 := stScenarios (env, [])
  let s2 := if s1.1.vlt_all then stLint s1 else stExecute (stCompile s1)
  stPasses s2

/-- The sequence of harness requests the descriptor makes when every
call returns normally. -/
def descriptorCalls (env : TestEnv) : List Event :=
  (runStatements env).2

/-- Whether an event is a lint request. -/
def isLintEvent : Event → Bool
  | Event.lint _ _ => true
  | _ => false

/-- Whether an event is a compile request. -/
def isCompileEvent : Event → Bool
  | Event.compile _ => true
  | _ => false

/-- Whether an event is an execute request. -/
def isExecuteEvent : Event → Bool
  | Event.execute => true
  | _ => false

/-- Abort semantics of the Python call sequence: each harness call
either returns normally (`ok e = true`) or reports an error by raising,
which aborts the remaining statements.  Returns the trace of calls that
were actually made together with whether the whole sequence completed
without error. -/
def execCalls (ok : Event → Bool) : List Event → List Event × Bool
  | [] => ([], true)
  | e :: rest =>
      if ok e then
        let r := execCalls ok rest
        (e :: r.1, r.2)
      else
        ([e], false)

/-- A run of the descriptor under abort semantics. -/
def runDescriptor (env : TestEnv) (ok : Event → Bool) : List Event × Bool :=
  execCalls ok (descriptorCalls env)

/-- The observable outcome of the lint step: whether the lint binary
exited successfully, and its captured textual output. -/
structure LintObs where
  exitedSuccessfully : Bool
  output : String
deriving DecidableEq, Repr

/-- Modelled from the spec: the harness lint step of `vltest_bootstrap`
is not under src/; per the spec, "the harness is expected to fail the
step if the observed outcome's success/failure polarity does not match
`expect_failure`, and to compare textual output against the golden
reference, reporting a mismatch as a TestFailure".  The step passes
exactly when the observed failure polarity matches `expect_failure` and
the output matches the golden reference content byte for byte. -/
def lintStepPasses (expect_failure : Bool) (goldenContent : String)
    (obs : LintObs) : Bool :=
  ((!obs.exitedSuccessfully) == expect_failure) && (obs.output == goldenContent)

/-- Modelled from the spec: the harness-derived `golden_filename` of
`vltest_bootstrap` is not under src/; per the spec it is "typically the
test file's own name with its reference-output suffix", the suffix of
expected-output references being `.out`. -/
def golden_filename (testFileName : String) : String :=
  testFileName ++ ".out"

/-- The name of this test file, without extension. -/
def thisTestName : String :=
  "t_covergroup_coverpoints_unsup"

/-- Modelled from the spec: the outcome of each harness call during one
run.  The lint step's outcome is determined by the polarity check and
the golden comparison (`lintStepPasses`); the outcomes of the remaining
steps (scenario registration, compile, execute, mark-pass) are supplied
by the ambient environment `extOk`, as the harness internals performing
them are not under src/. -/
def stepOutcome (goldenContent : String) (obs : LintObs)
    (extOk : Event → Bool) : Event → Bool
  | Event.lint f _ => lintStepPasses f goldenContent obs
  | e => extOk e

/-- A full run of the descriptor: the calls actually made under abort
semantics, and whether the run completed without any step reporting an
error (the pass/fail verdict). -/
def fullRun (env : TestEnv) (goldenContent : String) (obs : LintObs)
    (extOk : Event → Bool) : List Event × Bool :=
  execCalls (stepOutcome goldenContent obs extOk) (descriptorCalls env)

/-- Unfolded form of the trace: scenario registration first, then the
branch, then the mark-pass request. -/
lemma descriptorCalls_eq (env : TestEnv) :
    descriptorCalls env =
      Event.scenarios ["simulator"] ::
        (if env.vlt_all then [Event.lint true env.golden_filename]
         else [Event.compile [("nc", ["-coverage", "functional"])],
               Event.execute]) ++ [Event.passes] := by
  rcases env with ⟨v, gf⟩
  cases v <;>
    simp [descriptorCalls, runStatements, stScenarios, stLint, stCompile,
      stExecute, stPasses]

/-- The lint-branch trace, fully concrete. -/
lemma descriptorCalls_true (gf : String) :
    descriptorCalls ⟨true, gf⟩ =
      [Event.scenarios ["simulator"], Event.lint true gf, Event.passes] := by
  simp [descriptorCalls_eq]

/-- The compile-branch trace, fully concrete. -/
lemma descriptorCalls_false (gf : String) :
    descriptorCalls ⟨false, gf⟩ =
      [Event.scenarios ["simulator"],
       Event.compile [("nc", ["-coverage", "functional"])],
       Event.execute, Event.passes] := by
  simp [descriptorCalls_eq]

/-- A sentinel event that does not occur in a list survives to the end
of an aborting execution exactly when every earlier call succeeded. -/
lemma mem_execCalls_append (ok : Event → Bool) (l : List Event)
    (e : Event) (he : e ∉ l) :
    e ∈ (execCalls ok (l ++ [e])).1 ↔ ∀ x ∈ l, ok x = true := by
  induction l with
  | nil =>
      by_cases h : ok e = true <;> simp [execCalls, h]
  | cons x xs ih =>
      have hne : e ≠ x := fun h => he (h ▸ List.mem_cons_self x xs)
      have hexs : e ∉ xs := fun h => he (List.mem_cons_of_mem x h)
      by_cases h : ok x = true
      · simp [execCalls, h, hne, ih hexs]
      · simp [execCalls, h, hne]

/-- C1: For every value of the boolean mode flag `vlt_all`, the trace of
the descriptor contains a lint request or a compile request but never
both and never neither: exactly one of the two branches executes. -/
theorem c1_exactly_one_branch (env : TestEnv) :
    (descriptorCalls env).any isLintEvent ≠
      (descriptorCalls env).any isCompileEvent := by
  rcases env with ⟨v, gf⟩
  cases v
  · rw [descriptorCalls_false]
    simp [isLintEvent, isCompileEvent]
  · rw [descriptorCalls_true]
    simp [isLintEvent, isCompileEvent]

/-- C2: When `vlt_all` is true, the descriptor makes exactly one lint
request, with `fails = true` and the golden filename as the expected
output reference, and makes zero compile requests and zero execute
requests. -/
theorem c2_lint_branch_requests (gf : String) :
    (descriptorCalls ⟨true, gf⟩).filter isLintEvent = [Event.lint true gf] ∧
    (descriptorCalls ⟨true, gf⟩).filter isCompileEvent = [] ∧
    (descriptorCalls ⟨true, gf⟩).filter isExecuteEvent = [] := by
  rw [descriptorCalls_true]
  refine ⟨?_, ?_, ?_⟩ <;>
    simp [isLintEvent, isCompileEvent, isExecuteEvent, List.filter]

/-- C3: When `vlt_all` is false, the descriptor makes exactly one
compile request with the flag map sending backend "nc" to
["-coverage", "functional"], followed by exactly one execute request,
followed by the mark-pass request, in that order (after the initial
scenario registration). -/
theorem c3_compile_branch_sequence (gf : String) :
    descriptorCalls ⟨false, gf⟩ =
      [Event.scenarios ["simulator"],
       Event.compile [("nc", ["-coverage", "functional"])],
       Event.execute, Event.passes] :=
  descriptorCalls_false gf

/-- C4: Every compile request the descriptor ever makes carries a flag
map whose only entry is backend "nc" mapped to
["-coverage", "functional"]; any other backend has no entry in the map
and so receives no extra flags from this descriptor. -/
theorem c4_flags_only_nc (env : TestEnv) (fm : List (String × List String))
    (b : String) (hmem : Event.compile fm ∈ descriptorCalls env)
    (hb : b ≠ "nc") :
    List.lookup "nc" fm = some ["-coverage", "functional"] ∧
      List.lookup b fm = none := by
  rcases env with ⟨v, gf⟩
  have hfm : fm = [("nc", ["-coverage", "functional"])] := by
    cases v
    · rw [descriptorCalls_false] at hmem
      simp at hmem
      exact hmem
    · rw [descriptorCalls_true] at hmem
      simp at hmem
  subst hfm
  refine ⟨rfl, ?_⟩
  have hbeq : (b == "nc") = false := beq_eq_false_iff_ne.mpr hb
  simp [List.lookup, hbeq]

/-- Witness for C4 at a concrete backend and run: in the compile-branch
trace, the flag map maps "nc" to the coverage flags and backend "vcs"
to nothing. -/
theorem c4_flags_only_nc_witness :
    (Event.compile [("nc", ["-coverage", "functional"])] ∈
        descriptorCalls ⟨false, "g.out"⟩ ∧ "vcs" ≠ "nc") ∧
    (List.lookup "nc" [("nc", ["-coverage", "functional"])] =
        some ["-coverage", "functional"] ∧
      List.lookup "vcs" [("nc", ["-coverage", "functional"])] = none) :=
  ⟨⟨by rw [descriptorCalls_false]; simp, by decide⟩,
    c4_flags_only_nc ⟨false, "g.out"⟩ [("nc", ["-coverage", "functional"])]
      "vcs" (by rw [descriptorCalls_false]; simp) (by decide)⟩

/-- C5: Under abort semantics, the mark-pass call appears in the trace
of calls actually made if and only if every harness call before it
returned without error; an earlier aborting step prevents the mark-pass
call from ever being made. -/
theorem c5_passes_iff_no_prior_error (env : TestEnv) (ok : Event → Bool) :
    Event.passes ∈ (runDescriptor env ok).1 ↔
      ∀ e ∈ (descriptorCalls env).dropLast, ok e = true := by
  have hsplit : descriptorCalls env =
      (descriptorCalls env).dropLast ++ [Event.passes] := by
    rcases env with ⟨v, gf⟩
    cases v
    · rw [descriptorCalls_false]; rfl
    · rw [descriptorCalls_true]; rfl
  have hnotmem : Event.passes ∉ (descriptorCalls env).dropLast := by
    rcases env with ⟨v, gf⟩
    cases v
    · rw [descriptorCalls_false]; simp [List.dropLast]
    · rw [descriptorCalls_true]; simp [List.dropLast]
  calc Event.passes ∈ (runDescriptor env ok).1
      ↔ Event.passes ∈
          (execCalls ok ((descriptorCalls env).dropLast ++ [Event.passes])).1 := by
        rw [runDescriptor, ← hsplit]
    _ ↔ ∀ e ∈ (descriptorCalls env).dropLast, ok e = true :=
        mem_execCalls_append ok _ _ hnotmem

/-- C6: When the lint step is requested with `expect_failure = true`, a
run in which the lint binary exits successfully fails the step (the
observed polarity does not match the declared expectation), whatever
the golden reference content and the captured output. -/
theorem c6_polarity_mismatch (goldenContent : String) (obs : LintObs)
    (hsucc : obs.exitedSuccessfully = true) :
    lintStepPasses true goldenContent obs = false := by
  simp [lintStepPasses, hsucc]

/-- Witness for C6 at a concrete observation: a successful lint exit
whose output even matches the golden content still fails the step. -/
theorem c6_polarity_mismatch_witness :
    (LintObs.mk true "ok").exitedSuccessfully = true ∧
      lintStepPasses true "ok" (LintObs.mk true "ok") = false :=
  ⟨rfl, c6_polarity_mismatch "ok" (LintObs.mk true "ok") rfl⟩

/-- C7: Two runs of the descriptor under the same ambient harness
environment, with the same mode flag and golden filename, the same
golden reference content and the same observed lint outcome, make the
same sequence of harness calls and reach the same pass/fail verdict:
the descriptor and the golden comparison are deterministic. -/
theorem c7_deterministic (env : TestEnv) (extOk : Event → Bool)
    (gc1 gc2 : String) (obs1 obs2 : LintObs)
    (hgc : gc1 = gc2) (hobs : obs1 = obs2) :
    fullRun env gc1 obs1 extOk = fullRun env gc2 obs2 extOk := by
  subst hgc; subst hobs; rfl

/-- Witness for C7 at concrete inputs: two identically configured
lint-branch runs agree. -/
theorem c7_deterministic_witness :
    (("golden" : String) = "golden" ∧
        (LintObs.mk false "golden") = LintObs.mk false "golden") ∧
      fullRun ⟨true, "g.out"⟩ "golden" (LintObs.mk false "golden")
          (fun _ => true) =
        fullRun ⟨true, "g.out"⟩ "golden" (LintObs.mk false "golden")
          (fun _ => true) :=
  ⟨⟨rfl, rfl⟩,
    c7_deterministic ⟨true, "g.out"⟩ (fun _ => true) "golden" "golden"
      (LintObs.mk false "golden") (LintObs.mk false "golden") rfl rfl⟩

/-- C8: The descriptor only reads the mode flag `vlt_all` and never
writes it: after running every statement, the flag (indeed the whole
environment) equals its initial value, for every starting value. -/
theorem c8_vlt_all_not_mutated (env : TestEnv) :
    (runStatements env).1.vlt_all = env.vlt_all := by
  rcases env with ⟨v, gf⟩
  cases v <;>
    simp [runStatements, stScenarios, stLint, stCompile, stExecute, stPasses]

/-- C9: On the lint branch, the expected-output reference passed to the
lint request is the harness-derived golden filename, this test file's
own name with the reference-output suffix, namely
"t_covergroup_coverpoints_unsup.out". -/
theorem c9_golden_filename :
    golden_filename thisTestName = "t_covergroup_coverpoints_unsup.out" ∧
      Event.lint true "t_covergroup_coverpoints_unsup.out" ∈
        descriptorCalls ⟨true, golden_filename thisTestName⟩ := by
  constructor
  · rfl
  · rw [descriptorCalls_true]
    simp [golden_filename, thisTestName]

/-- C10: For every environment, the first harness call of the
descriptor is the scenario registration `scenarios(["simulator"])` —
nothing precedes it — and the lint branch's complete call sequence is
exactly scenario registration, then the lint request with `fails =
true` and the golden filename, then the mark-pass call. -/
theorem c10_scenarios_first (env : TestEnv) (gf : String) :
    (descriptorCalls env).head? = some (Event.scenarios ["simulator"]) ∧
      descriptorCalls ⟨true, gf⟩ =
        [Event.scenarios ["simulator"], Event.lint true gf, Event.passes] := by
  constructor
  · rw [descriptorCalls_eq]
    rfl
  · exact descriptorCalls_true gf
